import Mathlib

/-!
Shallow embedding of `siws/siws.py` (the `SiwsMessage` pydantic model with
`prepare_message` and `verify`) together with the field validators declared on
the model.  The Python file is translated definition by definition; stateful
behaviour (the one-time default fill of `issued_at` inside `prepare_message`,
and the fact that `verify` calls `prepare_message` on `self`) is made explicit
by returning the possibly-updated message alongside the computed value.

Collaborator modules of the repository that are not part of the provided
sources (`siws/custom_types.py`, `siws/parsed.py`, `siws/exceptions.py`) and
external capabilities (the pydantic URI validator, the nacl Ed25519 primitive)
are modelled as documented on the corresponding definitions.
-/

/-- Modelled from the spec: `CustomDateTime` lives in `siws/custom_types.py`,
which is not among the provided sources.  Per the spec it is a "canonical
timestamp" that keeps the original textual form for byte-exact
re-serialization (f-strings print `repr`) while exposing the parsed instant
(the source accesses `self.not_before.date` for the not-before comparison);
`date` is that instant, as an integer time coordinate. -/
structure CustomDateTime where
  repr : String
  date : Int
deriving Repr, DecidableEq

/-- The field record of `SiwsMessage` (the pydantic model fields of
`siws/siws.py`).  `chain_id` is `NonNegativeInt`, hence `Nat`; optional fields
are `Option`; `issued_at` may be absent at construction and is default-filled
by `prepare_message` (spec section 3); `resources` defaults to `None`. -/
structure SiwsMessage where
  domain : String
  address : String
  uri : String
  version : String
  chain_id : Nat
  issued_at : Option CustomDateTime
  nonce : String
  statement : Option String
  expiration_time : Option CustomDateTime
  not_before : Option CustomDateTime
  request_id : Option String
  resources : Option (List String)
deriving Repr, DecidableEq

/-- The errors that can escape `SiwsMessage.verify`.  `domainMismatch`,
`nonceMismatch`, `expiredMessage`, `notYetValidMessage` and
`invalidSignature` are the classes of `siws/exceptions.py` raised in
`verify`; `malformedAddressOrSignature` is the error kind named by the spec
(section 7); `codecError` stands for an uncaught Python error escaping the
`try` block, such as the `ValueError` that `base58.b58decode` raises on input
that is not valid base-58 (the `except` clause catches only
`BadSignatureError`). -/
inductive VerifyError where
  | domainMismatch
  | nonceMismatch
  | expiredMessage
  | notYetValidMessage
  | invalidSignature
  | malformedAddressOrSignature
  | codecError
deriving Repr, DecidableEq

deriving instance DecidableEq for Except

/-- The Bitcoin base-58 alphabet used by the `base58` package (default
alphabet of `b58decode`). -/
def B58_ALPHABET : List Char :=
  "123456789ABCDEFGHJKLMNPQRSTUVWXYZabcdefghijkmnopqrstuvwxyz".toList

/-- Index of a character in the base-58 alphabet; `none` for a character that
is not valid base-58. -/
def b58CharValue (c : Char) : Option Nat :=
  B58_ALPHABET.findIdx? (· == c)

/-- Big-endian minimal byte decomposition of a natural number, via a fuel
argument so that the definition is structural and evaluates in the kernel;
`fuel = n` always suffices because `n / 256 < n` for `n > 0`. -/
def natToBeBytesAux : Nat → Nat → List Nat
  | 0, _ => []
  | fuel+1, n => if n = 0 then [] else natToBeBytesAux fuel (n / 256) ++ [n % 256]

/-- Big-endian bytes of `n` (`[]` for `0`), as `int.to_bytes` produces for the
accumulated base-58 integer. -/
def natToBeBytes (n : Nat) : List Nat := natToBeBytesAux n n

/-- The external base-58 codec capability (`base58.b58decode` of the `base58`
package): strip trailing whitespace, map every remaining character through the
alphabet (`none`, the decode failure, if any character is not in it — the
package raises `ValueError` there, and its ASCII pre-encoding failure on
non-ASCII input is folded into the same failure), accumulate the base-58
integer, and prepend one zero byte per leading `'1'`. -/
def b58decode (s : String) : Option (List Nat) :=
  let cs := (s.toList.reverse.dropWhile Char.isWhitespace).reverse
  match cs.mapM b58CharValue with
  | none => none
  | some vals =>
    let acc := vals.foldl (fun a v => a * 58 + v) 0
    let zeros := (cs.takeWhile (· == '1')).length
    some (List.replicate zeros 0 ++ natToBeBytes acc)

/-- The `chain_field` local of `prepare_message`:
`f"Chain ID: {self.chain_id or 1}"`.  Python's `x or 1` yields `1` exactly
when `chain_id` is falsy, i.e. `0` for a `NonNegativeInt`. -/
def SiwsMessage.chain_field (self : SiwsMessage) : String :=
  "Chain ID: " ++ toString (if self.chain_id = 0 then 1 else self.chain_id)

/-- The one mutation performed by `prepare_message`:
`if self.issued_at is None: self.issued_at = datetime.utcnow().isoformat()`,
with `now` the current UTC instant. -/
def SiwsMessage.fillIssuedAt (self : SiwsMessage) (now : CustomDateTime) :
    SiwsMessage :=
  if self.issued_at.isNone then { self with issued_at := some now } else self

/-- The `suffix_array` local of `prepare_message` after all appends, for a
message whose `issued_at` has already been default-filled.  Mandatory entries
first, then each optional entry exactly under the truthiness condition the
source tests (`if self.expiration_time:` etc.; an empty `request_id` string
is falsy and skipped, as is an empty `resources` list; presence of the
datetime-valued fields is their being set). -/
def SiwsMessage.suffix_array (self : SiwsMessage) : List String :=
  ["URI: " ++ self.uri,
   "Version: " ++ self.version,
   self.chain_field,
   "Nonce: " ++ self.nonce,
   "Issued At: " ++ (match self.issued_at with
                     | some d => d.repr
                     | none => "")]
  ++ (match self.expiration_time with
      | some e => ["Expiration Time: " ++ e.repr]
      | none => [])
  ++ (match self.not_before with
      | some nb => ["Not Before: " ++ nb.repr]
      | none => [])
  ++ (match self.request_id with
      | some rid => if rid = "" then [] else ["Request ID: " ++ rid]
      | none => [])
  ++ (match self.resources with
      | some rs =>
        if rs.isEmpty then []
        else [String.intercalate "\n" ("Resources:" :: rs.map (fun r => "- " ++ r))]
      | none => [])

/-- The prefix block of `prepare_message`: header line and address joined by
`"\n"`, then either `"\n\n".join([prefix, self.statement])` when the
statement is truthy (set and non-empty) or `prefix += "\n"` otherwise. -/
def SiwsMessage.prefixPart (self : SiwsMessage) : String :=
  let header := self.domain ++ " wants you to sign in with your Solana account:"
  let p := String.intercalate "\n" [header, self.address]
  match self.statement with
  | some st => if st = "" then p ++ "\n" else String.intercalate "\n\n" [p, st]
  | none => p ++ "\n"

/-- `prepare_message` of `siws/siws.py`.  The Python method mutates `self`
(the `issued_at` default fill) and returns the serialized text; here the
updated message is returned alongside the text.  `now` is the current UTC
instant used for the fill.  The final return is
`"\n\n".join([prefix, suffix])` with `suffix = "\n".join(suffix_array)`. -/
def SiwsMessage.prepare_message (self : SiwsMessage) (now : CustomDateTime) :
    SiwsMessage × String :=
  let self1 := self.fillIssuedAt now
  (self1,
   String.intercalate "\n\n"
     [self1.prefixPart, String.intercalate "\n" self1.suffix_array])

/-- The domain contextual check of `verify`:
`if domain and domain != self.domain` — fails exactly when a truthy
(non-`None`, non-empty) expected domain was supplied and differs. -/
def domainCheckFails (supplied : Option String) (actual : String) : Bool :=
  match supplied with
  | some d => !(d == "") && !(d == actual)
  | none => false

/-- The nonce contextual check of `verify`:
`elif nonce and self.nonce != nonce`. -/
def nonceCheckFails (supplied : Option String) (actual : String) : Bool :=
  match supplied with
  | some x => !(x == "") && !(actual == x)
  | none => false

/-- The expiry contextual check of `verify`:
`elif self.expiration_time and verification_time >= self.expiration_time` —
the comparison is on the instants (spec section 4.4; `CustomDateTime` is
modelled from the spec, its comparison being that of its instant), and the
bound is inclusive. -/
def expiredCheck (expiration : Option CustomDateTime) (vt : Int) : Bool :=
  match expiration with
  | some e => e.date ≤ vt
  | none => false

/-- The not-before contextual check of `verify`:
`elif self.not_before and verification_time <= self.not_before.date` — the
source compares against the `.date` instant, inclusively. -/
def notBeforeCheck (nb : Option CustomDateTime) (vt : Int) : Bool :=
  match nb with
  | some d => vt ≤ d.date
  | none => false

/-- `verification_time = datetime.utcnow() if not timestamp else timestamp`:
the caller-supplied timestamp when given, else the current instant. -/
def verificationTime (timestamp : Option Int) (now : Int) : Int :=
  match timestamp with
  | some t => t
  | none => now

/-- The `try` block of `verify`:
`VerifyKey(base58.b58decode(self.address))`, `base58.b58decode(signature)`,
then `verify_key.verify(message, signature_bytes)`.  A decode failure is the
codec's own `ValueError`, which the `except BadSignatureError` clause does
not catch, hence `codecError`.  The Ed25519 primitive itself is the external
capability of the spec (section 1) and is passed in as the oracle `sigOk`
over the decoded key bytes, the serialized message text (whose UTF-8 bytes
are what the source passes) and the decoded signature bytes; `sigOk = false`
is nacl's `BadSignatureError`, which the `except` clause converts to
`InvalidSignature`. -/
def signatureStep (sigOk : List Nat → String → List Nat → Bool)
    (address signature message : String) : Except VerifyError Unit :=
  match b58decode address with
  | none => Except.error VerifyError.codecError
  | some keyBytes =>
    match b58decode signature with
    | none => Except.error VerifyError.codecError
    | some sigBytes =>
      if sigOk keyBytes message sigBytes then Except.ok ()
      else Except.error VerifyError.invalidSignature

/-- `verify` of `siws/siws.py`.  `self.prepare_message()` runs first (this
may fill `issued_at`, so the updated message is returned), then the
contextual checks in source order as an `if`/`elif` chain — domain, nonce,
expiration, not-before — and only past all of them the signature step.
`now` is the current UTC instant (used when no `timestamp` is supplied, and
for the `issued_at` fill as `nowDT`). -/
def SiwsMessage.verify (self : SiwsMessage)
    (sigOk : List Nat → String → List Nat → Bool)
    (signature : String)
    (domain : Option String) (nonce : Option String)
    (timestamp : Option Int) (now : Int) (nowDT : CustomDateTime) :
    SiwsMessage × Except VerifyError Unit :=
  let mp := self.prepare_message nowDT
  let self1 := mp.1
  let vt := verificationTime timestamp now
  let result : Except VerifyError Unit :=
    if domainCheckFails domain self1.domain then
      Except.error VerifyError.domainMismatch
    else if nonceCheckFails nonce self1.nonce then
      Except.error VerifyError.nonceMismatch
    else if expiredCheck self1.expiration_time vt then
      Except.error VerifyError.expiredMessage
    else if notBeforeCheck self1.not_before vt then
      Except.error VerifyError.notYetValidMessage
    else
      signatureStep sigOk self1.address signature mp.2
  (self1, result)

/-- The per-field validation errors of the pydantic `Field` constraints
declared on `SiwsMessage`. -/
inductive FieldError where
  | domainField
  | uriField
  | nonceField
  | statementField
  | resourcesField
deriving Repr, DecidableEq

/-- Errors of `SiwsMessage.__init__`: the bare `raise TypeError` for an input
that is neither `str` nor `dict`, a `ParsingError` from the parser strategies,
or a pydantic validation error from `super().__init__(**message_dict)`. -/
inductive ConstructError where
  | typeError
  | parsingError
  | validationError (f : FieldError)
deriving Repr, DecidableEq

/-- `domain: str = Field(pattern="^[^/?#]+$")`: a non-empty string none of
whose characters is `'/'`, `'?'` or `'#'`. -/
def domain_ok (s : String) : Bool :=
  !(s == "") && s.toList.all (fun c => !(c == '/') && !(c == '?') && !(c == '#'))

/-- `nonce: str = Field(min_length=8)`. -/
def nonce_ok (s : String) : Bool :=
  8 ≤ s.length

/-- `statement: Optional[str] = Field(None, pattern="^[^\n]+$")`: absent, or a
non-empty string with no newline. -/
def statement_ok : Option String → Bool
  | none => true
  | some st => !(st == "") && st.toList.all (fun c => !(c == '\n'))

/-- `resources: list[AnyUrl] = Field(None, min_length=1)`: absent, or a
non-empty list each of whose members passes the URI validator (the pydantic
`AnyUrl` adapter, an external capability taken as the parameter `uriOk`). -/
def resources_ok (uriOk : String → Bool) : Option (List String) → Bool
  | none => true
  | some rs => (1 ≤ rs.length) && rs.all uriOk

/-- The raw field record handed to pydantic (`message_dict`), of the same
shape as the model; pydantic coercions are taken as already done. -/
structure RawFields where
  domain : String
  address : String
  uri : String
  version : String
  chain_id : Nat
  issued_at : Option CustomDateTime
  nonce : String
  statement : Option String
  expiration_time : Option CustomDateTime
  not_before : Option CustomDateTime
  request_id : Option String
  resources : Option (List String)
deriving Repr, DecidableEq

/-- The message built from a raw field record, field for field. -/
def RawFields.toMessage (f : RawFields) : SiwsMessage :=
  ⟨f.domain, f.address, f.uri, f.version, f.chain_id, f.issued_at, f.nonce,
   f.statement, f.expiration_time, f.not_before, f.request_id, f.resources⟩

/-- `super().__init__(**message_dict)`: pydantic validates the declared
`Field` constraints (here checked in declaration order, the first violation
reported); on success the validated message exists, on failure no message
value is produced at all. -/
def validateFields (uriOk : String → Bool) (f : RawFields) :
    Except ConstructError SiwsMessage :=
  if !domain_ok f.domain then
    Except.error (ConstructError.validationError FieldError.domainField)
  else if !uriOk f.uri then
    Except.error (ConstructError.validationError FieldError.uriField)
  else if !nonce_ok f.nonce then
    Except.error (ConstructError.validationError FieldError.nonceField)
  else if !statement_ok f.statement then
    Except.error (ConstructError.validationError FieldError.statementField)
  else if !resources_ok uriOk f.resources then
    Except.error (ConstructError.validationError FieldError.resourcesField)
  else
    Except.ok f.toMessage

/-- The dynamic argument of `SiwsMessage.__init__(message, abnf=True)`: a
`str`, a `dict`, or any other Python value. -/
inductive PyInput where
  | strMsg (s : String) (abnf : Bool)
  | dictMsg (d : RawFields)
  | otherInput
deriving Repr

/-- `SiwsMessage.__init__`: a `str` goes through `ABNFParsedMessage` or
`RegExpParsedMessage` (in `siws/parsed.py`, not among the provided sources,
so the two strategies are taken as parameters), a `dict` is used directly,
and anything else hits `raise TypeError` before any field is touched; the
resulting field record is then validated by `super().__init__`. -/
def siwsInit (uriOk : String → Bool)
    (parseABNF parseRegExp : String → Except ConstructError RawFields) :
    PyInput → Except ConstructError SiwsMessage
  | PyInput.strMsg s abnf =>
    (if abnf then parseABNF s else parseRegExp s).bind (validateFields uriOk)
  | PyInput.dictMsg d => validateFields uriOk d
  | PyInput.otherInput => Except.error ConstructError.typeError

/-- The prefix block exactly as claim C6 and spec section 4.3 word it: header
line and address line joined by a single newline, the statement appended as a
blank-line-separated paragraph when present, a single trailing newline when it
is absent. -/
def claimedPrefix (self1 : SiwsMessage) : String :=
  let base := self1.domain ++ " wants you to sign in with your Solana account:"
               ++ "\n" ++ self1.address
  match self1.statement with
  | some st => if st = "" then base ++ "\n" else base ++ "\n\n" ++ st
  | none => base ++ "\n"

/-- The final layout exactly as claim C6 words it: the prefix, a blank line,
and the suffix with each suffix entry blank-line-separated. -/
def claimedLayout (self1 : SiwsMessage) : String :=
  claimedPrefix self1 ++ "\n\n" ++ String.intercalate "\n\n" self1.suffix_array

/-- The layout as the code actually produces it: as `claimedLayout`, except
that the suffix entries are separated by a single newline. -/
def amendedLayout (self1 : SiwsMessage) : String :=
  claimedPrefix self1 ++ "\n\n" ++ String.intercalate "\n" self1.suffix_array

/-- A concrete canonical timestamp used by the witnesses. -/
def exampleDT : CustomDateTime := ⟨"2024-01-01T00:00:00Z", 1704067200⟩

/-- A concrete valid message used by the witnesses: the example field set of
spec section 8 (its address given in base-58). -/
def exampleMsg : SiwsMessage :=
  { domain := "example.com"
    address := "2"
    uri := "https://example.com/login"
    version := "1"
    chain_id := 1
    issued_at := some exampleDT
    nonce := "abcdefgh"
    statement := none
    expiration_time := none
    not_before := none
    request_id := none
    resources := none }

/-- The raw field record of `exampleMsg`. -/
def exampleFields : RawFields :=
  ⟨"example.com", "2", "https://example.com/login", "1", 1, some exampleDT,
   "abcdefgh", none, none, none, none, none⟩

theorem fillIssuedAt_domain (m : SiwsMessage) (now : CustomDateTime) :
    (m.fillIssuedAt now).domain = m.domain := by
  unfold SiwsMessage.fillIssuedAt; split <;> rfl

theorem fillIssuedAt_nonce (m : SiwsMessage) (now : CustomDateTime) :
    (m.fillIssuedAt now).nonce = m.nonce := by
  unfold SiwsMessage.fillIssuedAt; split <;> rfl

theorem fillIssuedAt_expiration (m : SiwsMessage) (now : CustomDateTime) :
    (m.fillIssuedAt now).expiration_time = m.expiration_time := by
  unfold SiwsMessage.fillIssuedAt; split <;> rfl

theorem fillIssuedAt_not_before (m : SiwsMessage) (now : CustomDateTime) :
    (m.fillIssuedAt now).not_before = m.not_before := by
  unfold SiwsMessage.fillIssuedAt; split <;> rfl

theorem fillIssuedAt_address (m : SiwsMessage) (now : CustomDateTime) :
    (m.fillIssuedAt now).address = m.address := by
  unfold SiwsMessage.fillIssuedAt; split <;> rfl

theorem fillIssuedAt_chain_field (m : SiwsMessage) (now : CustomDateTime) :
    (m.fillIssuedAt now).chain_field = m.chain_field := by
  unfold SiwsMessage.fillIssuedAt; split <;> rfl

/-- C10: for every constructor input that is neither a string nor a dict,
`SiwsMessage.__init__` raises `TypeError`; the result is the bare error, no
(partial) message value is produced, whatever the URI validator and the two
parser strategies are. -/
theorem c10_init_type_error (uriOk : String → Bool)
    (parseABNF parseRegExp : String → Except ConstructError RawFields) :
    siwsInit uriOk parseABNF parseRegExp PyInput.otherInput =
      Except.error ConstructError.typeError := rfl

/-- C8: construction validates the nonce length with an inclusive bound of 8;
with every other field valid, a nonce of length 7 fails with the nonce-length
validation error and a nonce of length at least 8 passes validation (the
message is constructed). -/
theorem c8_nonce_min_length (uriOk : String → Bool) (f : RawFields)
    (hdom : domain_ok f.domain = true) (huri : uriOk f.uri = true)
    (hst : statement_ok f.statement = true)
    (hres : resources_ok uriOk f.resources = true) :
    (f.nonce.length = 7 →
      validateFields uriOk f =
        Except.error (ConstructError.validationError FieldError.nonceField)) ∧
    (8 ≤ f.nonce.length →
      validateFields uriOk f = Except.ok f.toMessage) := by
  constructor
  · intro h7
    unfold validateFields
    simp [hdom, huri, nonce_ok, h7]
  · intro h8
    unfold validateFields
    simp [hdom, huri, hst, hres, nonce_ok, h8]

/-- C8 witness: a field record with a length-7 nonce is rejected with the
nonce-length error, and the same record with a length-8 nonce validates. -/
theorem c8_nonce_min_length_witness :
    validateFields (fun _ => true) { exampleFields with nonce := "abcdefg" } =
      Except.error (ConstructError.validationError FieldError.nonceField) ∧
    validateFields (fun _ => true) exampleFields =
      Except.ok exampleFields.toMessage := by
  constructor
  · exact (c8_nonce_min_length (fun _ => true) _
      (by decide) rfl (by decide) (by decide)).1 (by decide)
  · exact (c8_nonce_min_length (fun _ => true) exampleFields
      (by decide) rfl (by decide) (by decide)).2 (by decide)

theorem domain_ok_iff (s : String) :
    domain_ok s = true ↔
      s ≠ "" ∧ ∀ c ∈ s.toList, c ≠ '/' ∧ c ≠ '?' ∧ c ≠ '#' := by
  simp [domain_ok, List.all_eq_true, and_assoc]

/-- C9: construction validates the domain against `^[^/?#]+$`; with every
other field valid, a domain containing one of `'/'`, `'?'`, `'#'` fails with
the domain validation error, and a non-empty domain free of those characters
passes validation (the message is constructed). -/
theorem c9_domain_pattern (uriOk : String → Bool) (f : RawFields)
    (huri : uriOk f.uri = true) (hnon : nonce_ok f.nonce = true)
    (hst : statement_ok f.statement = true)
    (hres : resources_ok uriOk f.resources = true) :
    ((∃ c ∈ f.domain.toList, c = '/' ∨ c = '?' ∨ c = '#') →
      validateFields uriOk f =
        Except.error (ConstructError.validationError FieldError.domainField)) ∧
    (f.domain ≠ "" → (∀ c ∈ f.domain.toList, c ≠ '/' ∧ c ≠ '?' ∧ c ≠ '#') →
      validateFields uriOk f = Except.ok f.toMessage) := by
  constructor
  · intro hbad
    have hdom : domain_ok f.domain = false := by
      cases hd : domain_ok f.domain with
      | false => rfl
      | true =>
        obtain ⟨c, hc, hor⟩ := hbad
        obtain ⟨-, hall⟩ := (domain_ok_iff f.domain).mp hd
        obtain ⟨h1, h2, h3⟩ := hall c hc
        rcases hor with h | h | h <;> simp [h] at h1 h2 h3
    unfold validateFields
    simp [hdom]
  · intro hne hall
    have hdom : domain_ok f.domain = true :=
      (domain_ok_iff f.domain).mpr ⟨hne, hall⟩
    unfold validateFields
    simp [hdom, huri, hnon, hst, hres]

/-- C9 witness: the record with domain `"a/b"` is rejected with the domain
validation error, and with domain `"a.b"` it validates. -/
theorem c9_domain_pattern_witness :
    validateFields (fun _ => true) { exampleFields with domain := "a/b" } =
      Except.error (ConstructError.validationError FieldError.domainField) ∧
    validateFields (fun _ => true) { exampleFields with domain := "a.b" } =
      Except.ok ({ exampleFields with domain := "a.b" } : RawFields).toMessage := by
  constructor
  · exact (c9_domain_pattern (fun _ => true) _
      rfl (by decide) (by decide) (by decide)).1 ⟨'/', by decide, by decide⟩
  · exact (c9_domain_pattern (fun _ => true) _
      rfl (by decide) (by decide) (by decide)).2 (by decide) (by decide)

/-- C5: the Chain ID line renders the literal `1` whenever `chain_id` is
falsy: the `chain_field` local is `"Chain ID: {chain_id}"` for non-zero
`chain_id` and `"Chain ID: 1"` for `chain_id = 0`; that line is one of the
serialized suffix entries; and the full serialized output of a message with
`chain_id = 0` is byte-identical to that of the same message with
`chain_id = 1`. -/
theorem c5_chain_id_falsy (m : SiwsMessage) (now : CustomDateTime) :
    (m.chain_id ≠ 0 → m.chain_field = "Chain ID: " ++ toString m.chain_id) ∧
    (m.chain_id = 0 → m.chain_field = "Chain ID: 1") ∧
    m.chain_field ∈ (m.fillIssuedAt now).suffix_array ∧
    (({ m with chain_id := 0 } : SiwsMessage).prepare_message now).2 =
      (({ m with chain_id := 1 } : SiwsMessage).prepare_message now).2 := by
  refine ⟨?_, ?_, ?_, ?_⟩
  · intro h
    simp [SiwsMessage.chain_field, h]
  · intro h
    simp only [SiwsMessage.chain_field, h, if_pos]
    rfl
  · rw [SiwsMessage.suffix_array, fillIssuedAt_chain_field]
    simp
  · unfold SiwsMessage.prepare_message SiwsMessage.fillIssuedAt
      SiwsMessage.prefixPart SiwsMessage.suffix_array SiwsMessage.chain_field
    by_cases h : m.issued_at.isNone <;> simp [h]

/-- C5 witness: at `chain_id = 0` the chain line is `"Chain ID: 1"` and the
serialized output equals that of the same message with `chain_id = 1`. -/
theorem c5_chain_id_falsy_witness :
    ({ exampleMsg with chain_id := 0 } : SiwsMessage).chain_field
        = "Chain ID: 1" ∧
    (({ exampleMsg with chain_id := 0 } : SiwsMessage).prepare_message
        exampleDT).2 =
      (({ exampleMsg with chain_id := 1 } : SiwsMessage).prepare_message
        exampleDT).2 := by
  refine ⟨(c5_chain_id_falsy { exampleMsg with chain_id := 0 }
    exampleDT).2.1 rfl, ?_⟩
  have h := (c5_chain_id_falsy exampleMsg exampleDT).2.2.2
  simpa using h

/-- C7: `prepare_message` mutates no field other than `issued_at`; it assigns
`issued_at` (the current UTC instant) only when it was unset; and for a
message whose `issued_at` is set it is idempotent: two successive calls leave
every field unchanged and return byte-identical serialized output, whatever
instant the second call happens at. -/
theorem c7_prepare_frame (m : SiwsMessage) (now now2 : CustomDateTime) :
    ((m.prepare_message now).1 =
      { m with issued_at := (m.prepare_message now).1.issued_at }) ∧
    (m.issued_at = none →
      (m.prepare_message now).1 = { m with issued_at := some now }) ∧
    (∀ t, m.issued_at = some t →
      (m.prepare_message now).1 = m ∧
      ((m.prepare_message now).1.prepare_message now2).1 = m ∧
      ((m.prepare_message now).1.prepare_message now2).2 =
        (m.prepare_message now).2) := by
  cases h : m.issued_at with
  | none =>
    refine ⟨?_, fun _ => ?_, fun t ht => by simp [h] at ht⟩ <;>
      simp [SiwsMessage.prepare_message, SiwsMessage.fillIssuedAt, h]
  | some t =>
    have hfill : m.fillIssuedAt now = m := by
      simp [SiwsMessage.fillIssuedAt, h]
    have hfill2 : m.fillIssuedAt now2 = m := by
      simp [SiwsMessage.fillIssuedAt, h]
    refine ⟨?_, fun hn => by simp [h] at hn, fun t' ht' => ?_⟩
    · simp [SiwsMessage.prepare_message, hfill]
    · refine ⟨?_, ?_, ?_⟩ <;>
        simp [SiwsMessage.prepare_message, hfill, hfill2]

/-- C7 witness: on a concrete message with `issued_at` set, serializing twice
(at two different instants) changes no field and returns identical output. -/
theorem c7_prepare_frame_witness :
    (exampleMsg.prepare_message ⟨"2025-06-01T00:00:00Z", 1748736000⟩).1 =
        exampleMsg ∧
    ((exampleMsg.prepare_message
        ⟨"2025-06-01T00:00:00Z", 1748736000⟩).1.prepare_message
        ⟨"2025-07-01T00:00:00Z", 1751328000⟩).1 = exampleMsg ∧
    ((exampleMsg.prepare_message
        ⟨"2025-06-01T00:00:00Z", 1748736000⟩).1.prepare_message
        ⟨"2025-07-01T00:00:00Z", 1751328000⟩).2 =
      (exampleMsg.prepare_message ⟨"2025-06-01T00:00:00Z", 1748736000⟩).2 :=
  (c7_prepare_frame exampleMsg ⟨"2025-06-01T00:00:00Z", 1748736000⟩
    ⟨"2025-07-01T00:00:00Z", 1751328000⟩).2.2 exampleDT rfl

theorem intercalate_pair (s a b : String) :
    String.intercalate s [a, b] = a ++ s ++ b := rfl

/-- C6 counterexample: on the concrete example message the serialized output
of `prepare_message` differs from the layout the claim describes (prefix,
blank line, then the suffix with each suffix entry blank-line-separated):
the code joins the suffix entries with a single newline. -/
theorem c6_layout_counterexample :
    (exampleMsg.prepare_message exampleDT).2 ≠
      claimedLayout (exampleMsg.fillIssuedAt exampleDT) := by decide

/-- C6 amended: `prepare_message` produces the prefix of the claim (header
line and address joined by a single newline, the statement appended as a
blank-line-separated paragraph when present, a single trailing newline when
absent), then a blank line, then the suffix — with each suffix entry
separated by a single newline rather than by a blank line. -/
theorem c6_layout_amended (m : SiwsMessage) (now : CustomDateTime) :
    (m.prepare_message now).2 = amendedLayout (m.fillIssuedAt now) := by
  unfold SiwsMessage.prepare_message amendedLayout claimedPrefix
    SiwsMessage.prefixPart
  cases h : (m.fillIssuedAt now).statement with
  | none => simp [h, intercalate_pair, String.append_assoc]
  | some st =>
    by_cases hst : st = "" <;>
      simp [h, hst, intercalate_pair, String.append_assoc]

/-- The `if`/`elif` chain of `verify`, one branch per conjunct: each check
decides the outcome only when every earlier check passed, and past all four
contextual checks the outcome is that of the signature step.  Shared between
the per-claim theorems below. -/
theorem verify_branches (m : SiwsMessage)
    (sigOk : List Nat → String → List Nat → Bool) (sig : String)
    (dom non : Option String) (ts : Option Int) (now : Int)
    (nowDT : CustomDateTime) :
    (domainCheckFails dom m.domain = true →
      (m.verify sigOk sig dom non ts now nowDT).2 =
        Except.error VerifyError.domainMismatch) ∧
    (domainCheckFails dom m.domain = false →
     nonceCheckFails non m.nonce = true →
      (m.verify sigOk sig dom non ts now nowDT).2 =
        Except.error VerifyError.nonceMismatch) ∧
    (domainCheckFails dom m.domain = false →
     nonceCheckFails non m.nonce = false →
     expiredCheck m.expiration_time (verificationTime ts now) = true →
      (m.verify sigOk sig dom non ts now nowDT).2 =
        Except.error VerifyError.expiredMessage) ∧
    (domainCheckFails dom m.domain = false →
     nonceCheckFails non m.nonce = false →
     expiredCheck m.expiration_time (verificationTime ts now) = false →
     notBeforeCheck m.not_before (verificationTime ts now) = true →
      (m.verify sigOk sig dom non ts now nowDT).2 =
        Except.error VerifyError.notYetValidMessage) ∧
    (domainCheckFails dom m.domain = false →
     nonceCheckFails non m.nonce = false →
     expiredCheck m.expiration_time (verificationTime ts now) = false →
     notBeforeCheck m.not_before (verificationTime ts now) = false →
      (m.verify sigOk sig dom non ts now nowDT).2 =
        signatureStep sigOk m.address sig (m.prepare_message nowDT).2) := by
  have hd := fillIssuedAt_domain m nowDT
  have hn := fillIssuedAt_nonce m nowDT
  have he := fillIssuedAt_expiration m nowDT
  have hb := fillIssuedAt_not_before m nowDT
  have ha := fillIssuedAt_address m nowDT
  refine ⟨?_, ?_, ?_, ?_, ?_⟩ <;> intros <;>
    simp_all [SiwsMessage.verify, SiwsMessage.prepare_message]

/-- C1: `verify` evaluates its contextual checks in the strict order domain,
nonce, expiration, not-before, then signature; the first failing check
determines the outcome as its specific error, regardless of everything later
(in particular the outcome on a supplied mismatching expected domain is
`DomainMismatch` for every signature string and every behaviour of the
cryptographic primitive, so no cryptographic work can influence it); only
past all four checks is the signature step consulted.  A caller supplies an
expected domain or nonce in the Python sense of the source's truthiness test
(`if domain and domain != self.domain:`): a non-`None`, non-empty string —
and every actual domain or nonce value of a validated message is non-empty. -/
theorem c1_verify_check_order (m : SiwsMessage)
    (sigOk : List Nat → String → List Nat → Bool) (sig : String)
    (dom non : Option String) (ts : Option Int) (now : Int)
    (nowDT : CustomDateTime) :
    (domainCheckFails dom m.domain = true →
      (m.verify sigOk sig dom non ts now nowDT).2 =
        Except.error VerifyError.domainMismatch) ∧
    (domainCheckFails dom m.domain = false →
     nonceCheckFails non m.nonce = true →
      (m.verify sigOk sig dom non ts now nowDT).2 =
        Except.error VerifyError.nonceMismatch) ∧
    (domainCheckFails dom m.domain = false →
     nonceCheckFails non m.nonce = false →
     expiredCheck m.expiration_time (verificationTime ts now) = true →
      (m.verify sigOk sig dom non ts now nowDT).2 =
        Except.error VerifyError.expiredMessage) ∧
    (domainCheckFails dom m.domain = false →
     nonceCheckFails non m.nonce = false →
     expiredCheck m.expiration_time (verificationTime ts now) = false →
     notBeforeCheck m.not_before (verificationTime ts now) = true →
      (m.verify sigOk sig dom non ts now nowDT).2 =
        Except.error VerifyError.notYetValidMessage) ∧
    (domainCheckFails dom m.domain = false →
     nonceCheckFails non m.nonce = false →
     expiredCheck m.expiration_time (verificationTime ts now) = false →
     notBeforeCheck m.not_before (verificationTime ts now) = false →
      (m.verify sigOk sig dom non ts now nowDT).2 =
        signatureStep sigOk m.address sig (m.prepare_message nowDT).2) :=
  verify_branches m sigOk sig dom non ts now nowDT

/-- C1 witness: supplying expected domain `"evil.example"` against a message
whose domain is `"good.example"` yields `DomainMismatch`, here with an oracle
that would accept any signature — so no cryptographic outcome matters. -/
theorem c1_verify_check_order_witness :
    (({ exampleMsg with domain := "good.example" } : SiwsMessage).verify
        (fun _ _ _ => true) "2" (some "evil.example") none (some 0) 0
        exampleDT).2 =
      Except.error VerifyError.domainMismatch :=
  (c1_verify_check_order { exampleMsg with domain := "good.example" }
    (fun _ _ _ => true) "2" (some "evil.example") none (some 0) 0
    exampleDT).1 (by decide)

/-- C4: with the domain and nonce checks passing, a set `expiration_time` and
`verification_time >= expiration_time` — equality included, the boundary is
inclusive — make `verify` fail with `ExpiredMessage`.  The instants compared
are those of the spec-modelled `CustomDateTime`. -/
theorem c4_expiration_inclusive (m : SiwsMessage)
    (sigOk : List Nat → String → List Nat → Bool) (sig : String)
    (dom non : Option String) (ts : Option Int) (now : Int)
    (nowDT : CustomDateTime) (e : CustomDateTime)
    (h1 : domainCheckFails dom m.domain = false)
    (h2 : nonceCheckFails non m.nonce = false)
    (he : m.expiration_time = some e)
    (hge : e.date ≤ verificationTime ts now) :
    (m.verify sigOk sig dom non ts now nowDT).2 =
      Except.error VerifyError.expiredMessage := by
  have h3 : expiredCheck m.expiration_time (verificationTime ts now) = true := by
    simp [expiredCheck, he, hge]
  exact (verify_branches m sigOk sig dom non ts now nowDT).2.2.1 h1 h2 h3

/-- C4 witness: `verification_time` exactly equal to the expiration instant
already fails as expired. -/
theorem c4_expiration_inclusive_witness :
    (({ exampleMsg with
        expiration_time := some ⟨"2024-03-01T00:00:00Z", 1709251200⟩ }
        : SiwsMessage).verify (fun _ _ _ => true) "2" none none
        (some 1709251200) 0 exampleDT).2 =
      Except.error VerifyError.expiredMessage :=
  c4_expiration_inclusive _ (fun _ _ _ => true) "2" none none
    (some 1709251200) 0 exampleDT ⟨"2024-03-01T00:00:00Z", 1709251200⟩
    rfl rfl rfl (by decide)

/-- C3: with the domain, nonce and expiration checks passing, a set
`not_before` and `verification_time <= not_before` — equality included, the
boundary is inclusive — make `verify` fail with `NotYetValidMessage` (the
source compares `verification_time <= self.not_before.date`). -/
theorem c3_not_before_inclusive (m : SiwsMessage)
    (sigOk : List Nat → String → List Nat → Bool) (sig : String)
    (dom non : Option String) (ts : Option Int) (now : Int)
    (nowDT : CustomDateTime) (nb : CustomDateTime)
    (h1 : domainCheckFails dom m.domain = false)
    (h2 : nonceCheckFails non m.nonce = false)
    (h3 : expiredCheck m.expiration_time (verificationTime ts now) = false)
    (hnb : m.not_before = some nb)
    (hle : verificationTime ts now ≤ nb.date) :
    (m.verify sigOk sig dom non ts now nowDT).2 =
      Except.error VerifyError.notYetValidMessage := by
  have h4 : notBeforeCheck m.not_before (verificationTime ts now) = true := by
    simp [notBeforeCheck, hnb, hle]
  exact (verify_branches m sigOk sig dom non ts now nowDT).2.2.2.1 h1 h2 h3 h4

/-- C3 witness: `verification_time` exactly equal to the not-before instant
already fails as not yet valid. -/
theorem c3_not_before_inclusive_witness :
    (({ exampleMsg with
        not_before := some ⟨"2024-02-01T00:00:00Z", 1706745600⟩ }
        : SiwsMessage).verify (fun _ _ _ => true) "2" none none
        (some 1706745600) 0 exampleDT).2 =
      Except.error VerifyError.notYetValidMessage :=
  c3_not_before_inclusive _ (fun _ _ _ => true) "2" none none
    (some 1706745600) 0 exampleDT ⟨"2024-02-01T00:00:00Z", 1706745600⟩
    rfl rfl rfl rfl (by decide)

/-- C2 counterexample: the signature string `"0"` is not valid base-58 (the
character `'0'` is not in the alphabet), so its decode fails — yet `verify`
does not produce `MalformedAddressOrSignature`: the codec's own error escapes
the `try` block, whose `except` clause catches only `BadSignatureError`. -/
theorem c2_decode_error_counterexample :
    (exampleMsg.verify (fun _ _ _ => true) "0" none none (some 0) 0
        exampleDT).2 = Except.error VerifyError.codecError ∧
    (exampleMsg.verify (fun _ _ _ => true) "0" none none (some 0) 0
        exampleDT).2 ≠
      Except.error VerifyError.malformedAddressOrSignature :=
  ⟨rfl, by decide⟩

/-- C2 amended: when the contextual checks pass and decoding the address or
the signature from base-58 fails, `verify` propagates the codec's own decode
error uncaught (a `ValueError` in the reference); it never raises
`MalformedAddressOrSignature`. -/
theorem c2_decode_error_amended (m : SiwsMessage)
    (sigOk : List Nat → String → List Nat → Bool) (sig : String)
    (dom non : Option String) (ts : Option Int) (now : Int)
    (nowDT : CustomDateTime)
    (h1 : domainCheckFails dom m.domain = false)
    (h2 : nonceCheckFails non m.nonce = false)
    (h3 : expiredCheck m.expiration_time (verificationTime ts now) = false)
    (h4 : notBeforeCheck m.not_before (verificationTime ts now) = false)
    (h5 : b58decode m.address = none ∨ b58decode sig = none) :
    (m.verify sigOk sig dom non ts now nowDT).2 =
      Except.error VerifyError.codecError ∧
    (m.verify sigOk sig dom non ts now nowDT).2 ≠
      Except.error VerifyError.malformedAddressOrSignature := by
  have hs := (verify_branches m sigOk sig dom non ts now nowDT).2.2.2.2
    h1 h2 h3 h4
  have hcodec : signatureStep sigOk m.address sig
      (m.prepare_message nowDT).2 = Except.error VerifyError.codecError := by
    unfold signatureStep
    rcases h5 with h | h
    · simp [h]
    · cases ha : b58decode m.address <;> simp [ha, h]
  rw [hs, hcodec]
  exact ⟨rfl, by decide⟩

/-- C2 amended witness: a concrete run in which the address decodes but the
signature string `"O"` does not (the character `'O'` is not in the base-58
alphabet) ends in the codec error, not in `MalformedAddressOrSignature`. -/
theorem c2_decode_error_amended_witness :
    (exampleMsg.verify (fun _ _ _ => true) "O" none none (some 0) 0
        exampleDT).2 = Except.error VerifyError.codecError ∧
    (exampleMsg.verify (fun _ _ _ => true) "O" none none (some 0) 0
        exampleDT).2 ≠
      Except.error VerifyError.malformedAddressOrSignature :=
  c2_decode_error_amended exampleMsg (fun _ _ _ => true) "O" none none
    (some 0) 0 exampleDT rfl rfl rfl rfl (Or.inr (by decide))
